import Mathlib

/-!
Verification of the Qode queue-management core against its specification.

The repository ships the React frontend (`frontend/src/hooks/useWebSocket.js`,
`frontend/src/pages/GuestView.jsx`, ...) together with the architecture
documents; the Python backend (`ticket_service.py`, `eta_service.py`, the
status state machine) is not part of the source tree.  Backend behaviour is
therefore modelled from the specification (each such definition says so in
its doc comment), while every frontend definition below is a direct shallow
embedding of the JavaScript source.
-/

namespace Qode

/-- Ticket status enumeration, mirroring the `status` enum of the `tickets`
table: `WAITING`, `CALLED`, `SERVING`, `COMPLETED`, `NO_SHOW`, `CANCELLED`. -/
inductive Status where
  | WAITING
  | CALLED
  | SERVING
  | COMPLETED
  | NO_SHOW
  | CANCELLED
deriving DecidableEq, Repr

/-- Statuses counted as "active" for the duplicate-holder check:
`{WAITING, CALLED, SERVING}`. -/
def Status.isActive : Status → Bool
  | .WAITING => true
  | .CALLED => true
  | .SERVING => true
  | _ => false

/-- Modelled from the spec (§3, backend `models.py` not in src): one ticket.
Holder identities and timestamps are opaque, modelled as naturals. -/
structure Ticket where
  holderId : Nat
  position : Nat
  status : Status
  createdAt : Nat
  calledAt : Option Nat
  completedAt : Option Nat
deriving DecidableEq, Repr

/-- Modelled from the spec (§3, backend `models.py` not in src): the mutable
state of a single queue together with all tickets ever issued for it
(tickets are never deleted). -/
structure QueueState where
  active : Bool
  currentPosition : Nat
  lastIssued : Nat
  completedCount : Nat
  tickets : List Ticket
deriving DecidableEq, Repr

/-- Errors of the ticket sequencer (§4.1). -/
inductive IssueError where
  | QueueInactive
  | DuplicateHolder
deriving DecidableEq, Repr

/-- Errors of the status state machine (§4.2/§6).  Per §4.2 "any transition
not in this table fails with `InvalidTransition`" and §8's exhaustive
property, every illegal pair is modelled as `InvalidTransition`;
`NotFound` is returned for an unknown ticket (§6 `queryTicket`). -/
inductive TransError where
  | NotFound
  | InvalidTransition
deriving DecidableEq, Repr

/-- Whether `holderId` already owns a ticket in this queue whose status is in
`{WAITING, CALLED, SERVING}` (§4.1 duplicate-holder check). -/
def hasActiveTicket (s : QueueState) (holderId : Nat) : Bool :=
  s.tickets.any (fun t => t.holderId == holderId && t.status.isActive)

/-- Modelled from the spec (§4.1, backend `ticket_service.py` not in src):
`issue(queueId, holderId)`.  Fails with `QueueInactive` if the queue is not
accepting joins, with `DuplicateHolder` if the holder already has an active
ticket; otherwise atomically increments `lastIssued` and creates a `WAITING`
ticket carrying the new value as its position.  The state component of the
result is the queue state after the call (unchanged on failure). -/
def issueRun (s : QueueState) (holderId now : Nat) :
    QueueState × Except IssueError Ticket :=
  if s.active = false then (s, .error .QueueInactive)
  else if hasActiveTicket s holderId then (s, .error .DuplicateHolder)
  else
    let pos := s.lastIssued + 1
    let t : Ticket :=
      { holderId := holderId, position := pos, status := .WAITING,
        createdAt := now, calledAt := none, completedAt := none }
    ({ s with lastIssued := pos, tickets := s.tickets ++ [t] }, .ok t)

/-- The five legal transitions of the status state machine (§4.2). -/
def legal : Status → Status → Bool
  | .WAITING, .CALLED => true
  | .WAITING, .CANCELLED => true
  | .CALLED, .SERVING => true
  | .CALLED, .NO_SHOW => true
  | .SERVING, .COMPLETED => true
  | _, _ => false

/-- Modelled from the spec (§4.2): a successful transition writes the target
status and records the timestamp of the transition (`calledAt` on `CALLED`,
`completedAt` on `COMPLETED`); `position`, `holderId` and `createdAt` are
immutable. -/
def applyStatus (t : Ticket) (target : Status) (now : Nat) : Ticket :=
  { t with
    status := target,
    calledAt := if target = .CALLED then some now else t.calledAt,
    completedAt := if target = .COMPLETED then some now else t.completedAt }

/-- Modelled from the spec (§4.2, backend state machine not in src):
`transition(ticketId, targetStatus)`.  Tickets are identified by their
(unique) position.  A legal transition rewrites the ticket and, when the
target is `COMPLETED` or `NO_SHOW`, advances `currentPosition` to the
ticket's position (the only writer of `currentPosition`) and bumps
`completedCount` on `COMPLETED`.  Any transition not in the table fails
with `InvalidTransition` and leaves the state unchanged. -/
def transitionRun (s : QueueState) (pos : Nat) (target : Status) (now : Nat) :
    QueueState × Except TransError Ticket :=
  match s.tickets.find? (fun t => t.position == pos) with
  | none => (s, .error .NotFound)
  | some t =>
    if legal t.status target then
      let updated := applyStatus t target now
      let tickets := s.tickets.map (fun u => if u.position == pos then updated else u)
      let cur := if target = Status.COMPLETED ∨ target = Status.NO_SHOW then
                   t.position
                 else s.currentPosition
      let cc := if target = Status.COMPLETED then s.completedCount + 1 else s.completedCount
      ({ s with tickets := tickets, currentPosition := cur, completedCount := cc }, .ok updated)
    else (s, .error .InvalidTransition)

/-- Freshly created queue (§3): active, both counters 0, no tickets. -/
def initState : QueueState :=
  { active := true, currentPosition := 0, lastIssued := 0,
    completedCount := 0, tickets := [] }

/-- One step of the core: an `issueTicket` or a `transition` call through the
external interface (§6); failed calls leave the state unchanged. -/
inductive Step : QueueState → QueueState → Prop where
  | issue (s : QueueState) (holderId now : Nat) :
      Step s (issueRun s holderId now).1
  | trans (s : QueueState) (pos : Nat) (target : Status) (now : Nat) :
      Step s (transitionRun s pos target now).1

/-- Queue states reachable from a freshly created queue by interface calls. -/
inductive Reachable : QueueState → Prop where
  | init : Reachable initState
  | step {s s' : QueueState} : Reachable s → Step s s' → Reachable s'

/-- Modelled from the spec (§8): a batch of `issueTicket` calls, one per
holder in the list; returns the final state and the tickets created by the
calls that succeeded. -/
def issueAll (s : QueueState) (holders : List Nat) (now : Nat) :
    QueueState × List Ticket :=
  match holders with
  | [] => (s, [])
  | h :: rest =>
    let r := issueRun s h now
    let res := issueAll r.1 rest now
    match r.2 with
    | .ok t => (res.1, t :: res.2)
    | .error _ => res

/-- Result of the ETA estimator (§4.3). -/
inductive EtaResult where
  | NotEnoughData
  | YourTurn
  | Seconds (n : ℚ)
deriving DecidableEq

/-- Modelled from the spec (§4.3, backend `eta_service.py` not in src):
`estimate(queueId, targetPosition)` over the queue fields `completedCount`,
`currentPosition` and `avgServiceSeconds`. -/
def estimate (completedCount currentPosition targetPosition : Nat)
    (avgServiceSeconds : ℚ) : EtaResult :=
  if completedCount < 10 then .NotEnoughData
  else if targetPosition ≤ currentPosition then .YourTurn
  else .Seconds (((targetPosition : ℚ) - (currentPosition : ℚ)) * avgServiceSeconds)

/-- Modelled from the spec (§4.3, backend `eta_service.py` not in src):
the fixed EMA smoothing weight `α = 0.3`. -/
def alpha : ℚ := 3 / 10

/-- Modelled from the spec (§4.3): `avg' = avg * (1 - α) + serviceSeconds * α`. -/
def emaUpdate (avg serviceSeconds : ℚ) : ℚ :=
  avg * (1 - alpha) + serviceSeconds * alpha

/-- Modelled from the spec (§4.3): `onCompletion(queueId, serviceSeconds)`
acting on the pair `(avgServiceSeconds, completedCount)`: updates the EMA
and increments `completedCount`. -/
def onCompletion (q : ℚ × Nat) (serviceSeconds : ℚ) : ℚ × Nat :=
  (emaUpdate q.1 serviceSeconds, q.2 + 1)

/-- The distinct strings `calculateETA` in `GuestView.jsx` can return,
abstracted over the embedded numbers. -/
inductive EtaDisplay where
  | yourTurn
  | calculating
  | lessThanOneMinute
  | aboutOneMinute
  | aboutMinutes (m : Nat)
  | aboutOneHour
  | aboutHours (h : Nat)
  | aboutHoursMinutes (h m : Nat)
deriving DecidableEq, Repr

/-- Tail of `calculateETA` (`GuestView.jsx:127-136`): the displayed label as
a function of the computed whole-minute count. -/
def minutesLabel (minutes : Nat) : EtaDisplay :=
  if minutes < 1 then .lessThanOneMinute
  else if minutes = 1 then .aboutOneMinute
  else if minutes < 60 then .aboutMinutes minutes
  else if minutes / 60 = 1 ∧ minutes % 60 = 0 then .aboutOneHour
  else if minutes % 60 = 0 then .aboutHours (minutes / 60)
  else .aboutHoursMinutes (minutes / 60) (minutes % 60)

/-- Shallow embedding of `calculateETA` (`GuestView.jsx:105-137`), for a
loaded ticket.  `position_number`, `currentPosition` and `avgWaitTime` are
integers (schema: `position_number`, `current_position`, `avg_wait_time`
are Integer columns), so JavaScript's `Math.ceil(totalSeconds / 60)` is the
exact ceiling division `(totalSeconds + 59) / 60` on naturals. -/
def calculateETA (position_number currentPosition avgWaitTime : Nat) : EtaDisplay :=
  if position_number ≤ currentPosition then .yourTurn
  else if avgWaitTime = 0 then .calculating
  else
    minutesLabel (((position_number - currentPosition) * avgWaitTime + 59) / 60)

/-- Fixed backoff parameters of `useWebSocket.js:15-16`: `INITIAL_DELAY`
is 1000 ms and `MAX_RECONNECT_DELAY` is 30000 ms. -/
def INITIAL_DELAY : Nat := 1000

/-- Ceiling of the reconnect delay (`useWebSocket.js:15`). -/
def MAX_RECONNECT_DELAY : Nat := 30000

/-- Delay computed by `scheduleReconnect` (`useWebSocket.js:72-75`):
`min(INITIAL_DELAY * 2 ** attempts, MAX_RECONNECT_DELAY)`. -/
def backoffDelay (attempts : Nat) : Nat :=
  min (INITIAL_DELAY * 2 ^ attempts) MAX_RECONNECT_DELAY

/-- Connection-outcome events seen by the hook: `fail` is a connection
attempt ending in `onclose`/`onerror` with the scheduled reconnect timer
then firing (`useWebSocket.js:79-82`), `success` is `onopen`. -/
inductive WsEvent where
  | fail
  | success
deriving DecidableEq, Repr

/-- Evolution of `reconnectAttemptsRef` (`useWebSocket.js:36` resets it to 0
in `onopen`; `useWebSocket.js:80` increments it when the reconnect timer of
a failed attempt fires). -/
def wsStep (attempts : Nat) : WsEvent → Nat
  | .fail => attempts + 1
  | .success => 0

/-- Value of `reconnectAttemptsRef` after a sequence of connection
outcomes, starting from the initial value 0 (`useWebSocket.js:13`). -/
def attemptsAfter (events : List WsEvent) : Nat :=
  events.foldl wsStep 0

/-- Event-loop state of one `useWebSocket` hook instance.  `wsAttached` is
`wsRef.current !== null`; `closePending` records that a created WebSocket
has closed (or been closed) and its `onclose` callback has not yet run;
`timerPending` is `reconnectTimeoutRef.current !== null`. -/
structure HookState where
  wsAttached : Bool
  closePending : Bool
  timerPending : Bool
  attempts : Nat
deriving DecidableEq, Repr

/-- Embedding of `scheduleReconnect` (`useWebSocket.js:70-83`): stores a
fresh timeout in `reconnectTimeoutRef`. -/
def scheduleReconnect (s : HookState) : HookState :=
  { s with timerPending := true }

/-- Embedding of `disconnect` (`useWebSocket.js:85-97`): clears any pending
reconnect timer, then closes the WebSocket if one is attached (queueing its
`close` event for later delivery) and nulls `wsRef`. -/
def disconnect (s : HookState) : HookState :=
  { s with
    timerPending := false,
    closePending := s.closePending || s.wsAttached,
    wsAttached := false }

/-- Delivery of a queued WebSocket `close` event: the `ws.onclose` handler
(`useWebSocket.js:54-61`) nulls `wsRef` and unconditionally calls
`scheduleReconnect`. -/
def fireClose (s : HookState) : HookState :=
  if s.closePending then
    scheduleReconnect { s with closePending := false, wsAttached := false }
  else s

/-- Hook state with an open connection and no pending timer or event. -/
def connectedHook : HookState :=
  { wsAttached := true, closePending := false, timerPending := false, attempts := 0 }

/-- Client-visible sync state of `GuestView.jsx`: `currentPosition` and
`avgWaitTime` mirror the pushed `queue_update` fields
(`GuestView.jsx:97-102`), `connected` the hook's connection status. -/
structure ClientState where
  currentPosition : Nat
  avgWaitTime : Nat
  connected : Bool
  attempts : Nat
deriving DecidableEq, Repr

/-- Events observable by the client agent: a delivered `queue_update` push,
a connection drop, and a successful reconnect (`ws.onopen`). -/
inductive ClientEvent where
  | message (current_position avg_wait_time : Nat)
  | dropped
  | reopened
deriving DecidableEq, Repr

/-- Embedding of the client agent's event handling: `queue_update` messages
overwrite position and average wait (`GuestView.jsx:97-102`, delivered only
while connected), `onclose` marks the agent disconnected
(`useWebSocket.js:54-57`), and `onopen` (`useWebSocket.js:33-37`) only sets
the status to connected and resets the attempt counter — it performs no
state query. -/
def clientStep (s : ClientState) : ClientEvent → ClientState
  | .message cp awt =>
    if s.connected then { s with currentPosition := cp, avgWaitTime := awt } else s
  | .dropped => { s with connected := false }
  | .reopened => { s with connected := true, attempts := 0 }

/-- Client state after a sequence of events, starting connected with the
initial position and average of `GuestView.jsx:32-33`. -/
def clientRun (events : List ClientEvent) : ClientState :=
  events.foldl clientStep
    { currentPosition := 0, avgWaitTime := 0, connected := true, attempts := 0 }

/-- Two-ticket example queue: holder 7 then holder 8 join a fresh queue. -/
def exQ1 : QueueState := (issueRun initState 7 0).1

/-- Example queue after the second join. -/
def exQ2 : QueueState := (issueRun exQ1 8 0).1

/-- Example: ticket 2 is called, served and completed out of order, which
sets `currentPosition` to 2. -/
def exQ5 : QueueState :=
  (transitionRun (transitionRun (transitionRun exQ2 2 .CALLED 1).1 2 .SERVING 2).1
    2 .COMPLETED 3).1

/-- Example: afterwards ticket 1 is called and served. -/
def exQ7 : QueueState :=
  (transitionRun (transitionRun exQ5 1 .CALLED 4).1 1 .SERVING 5).1

theorem issueRun_active (s : QueueState) (holderId now : Nat) :
    ((issueRun s holderId now).1).active = s.active := by
  unfold issueRun
  split
  · rfl
  · split <;> rfl

theorem issueRun_currentPosition (s : QueueState) (holderId now : Nat) :
    ((issueRun s holderId now).1).currentPosition = s.currentPosition := by
  unfold issueRun
  split
  · rfl
  · split <;> rfl

theorem issueRun_cases (s : QueueState) (holderId now : Nat) :
    ((issueRun s holderId now).1 = s ∧ ∃ e, (issueRun s holderId now).2 = .error e) ∨
    (∃ t, (issueRun s holderId now).2 = .ok t ∧ t.position = s.lastIssued + 1 ∧
      ((issueRun s holderId now).1).lastIssued = s.lastIssued + 1 ∧
      ((issueRun s holderId now).1).tickets = s.tickets ++ [t]) := by
  unfold issueRun
  split
  · exact .inl ⟨rfl, _, rfl⟩
  · split
    · exact .inl ⟨rfl, _, rfl⟩
    · exact .inr ⟨_, rfl, rfl, rfl, rfl⟩

theorem issueRun_lastIssued_ge (s : QueueState) (holderId now : Nat) :
    s.lastIssued ≤ ((issueRun s holderId now).1).lastIssued := by
  rcases issueRun_cases s holderId now with ⟨heq, _⟩ | ⟨t, _, _, hlast, _⟩
  · rw [heq]
  · rw [hlast]; exact Nat.le_succ _

theorem transitionRun_active (s : QueueState) (pos : Nat) (target : Status) (now : Nat) :
    ((transitionRun s pos target now).1).active = s.active := by
  unfold transitionRun
  cases hf : s.tickets.find? (fun t => t.position == pos) with
  | none => rfl
  | some t =>
    simp only
    split <;> rfl

theorem transitionRun_lastIssued (s : QueueState) (pos : Nat) (target : Status) (now : Nat) :
    ((transitionRun s pos target now).1).lastIssued = s.lastIssued := by
  unfold transitionRun
  cases hf : s.tickets.find? (fun t => t.position == pos) with
  | none => rfl
  | some t =>
    simp only
    split <;> rfl

theorem transitionRun_map_position (s : QueueState) (pos : Nat) (target : Status) (now : Nat) :
    ((transitionRun s pos target now).1).tickets.map (fun t => t.position) =
      s.tickets.map (fun t => t.position) := by
  unfold transitionRun
  cases hf : s.tickets.find? (fun t => t.position == pos) with
  | none => rfl
  | some t =>
    have ht : t.position = pos := by
      have := List.find?_some hf
      simpa using this
    simp only
    split
    · simp only [List.map_map]
      refine List.map_congr_left (fun u _ => ?_)
      by_cases hu : (u.position == pos) = true
      · simp only [Function.comp, hu, if_pos]
        have : u.position = pos := by simpa using hu
        simp [applyStatus, ht, this]
      · simp [Function.comp, hu]
    · rfl

theorem transitionRun_currentPosition_cases (s : QueueState) (pos : Nat)
    (target : Status) (now : Nat) :
    ((transitionRun s pos target now).1).currentPosition = s.currentPosition ∨
    (∃ t, s.tickets.find? (fun u => u.position == pos) = some t ∧
      ((transitionRun s pos target now).1).currentPosition = t.position) := by
  unfold transitionRun
  cases hf : s.tickets.find? (fun t => t.position == pos) with
  | none => exact .inl rfl
  | some t =>
    simp only
    split
    · by_cases htgt : target = Status.COMPLETED ∨ target = Status.NO_SHOW
      · exact .inr ⟨t, rfl, by simp [htgt]⟩
      · exact .inl (by simp [htgt])
    · exact .inl rfl

theorem reachable_active {s : QueueState} (hs : Reachable s) : s.active = true := by
  induction hs with
  | init => rfl
  | @step s s' _ hstep ih =>
    cases hstep with
    | issue holderId now => rw [issueRun_active]; exact ih
    | trans pos target now => rw [transitionRun_active]; exact ih

theorem reachable_positions {s : QueueState} (hs : Reachable s) :
    s.tickets.map (fun t => t.position) = List.range' 1 s.lastIssued := by
  induction hs with
  | init => rfl
  | @step s s' _ hstep ih =>
    cases hstep with
    | issue holderId now =>
      rcases issueRun_cases s holderId now with ⟨heq, _⟩ | ⟨t, _, hpos, hlast, htick⟩
      · rw [heq]; exact ih
      · rw [htick, hlast, List.map_append, ih, List.range'_1_concat]
        simp [hpos, Nat.add_comm]
    | trans pos target now =>
      rw [transitionRun_map_position, transitionRun_lastIssued]; exact ih

theorem reachable_ticket_position {s : QueueState} (hs : Reachable s) :
    ∀ t ∈ s.tickets, t.position ≤ s.lastIssued := by
  intro t ht
  have hmem : t.position ∈ List.range' 1 s.lastIssued := by
    rw [← reachable_positions hs]
    exact List.mem_map_of_mem _ ht
  have := List.mem_range'_1.mp hmem
  omega

theorem reachable_cur_le {s : QueueState} (hs : Reachable s) :
    s.currentPosition ≤ s.lastIssued := by
  induction hs with
  | init => exact Nat.le_refl 0
  | @step s s' hr hstep ih =>
    cases hstep with
    | issue holderId now =>
      rw [issueRun_currentPosition]
      exact Nat.le_trans ih (issueRun_lastIssued_ge s holderId now)
    | trans pos target now =>
      rw [transitionRun_lastIssued]
      rcases transitionRun_currentPosition_cases s pos target now with h | ⟨t, hf, h⟩
      · rw [h]; exact ih
      · rw [h]
        exact reachable_ticket_position hr t (List.mem_of_find?_eq_some hf)

theorem issueAll_positions (holders : List Nat) (s : QueueState) (now : Nat) :
    ((issueAll s holders now).2).map (fun t => t.position) =
      List.range' (s.lastIssued + 1) ((issueAll s holders now).2).length := by
  induction holders generalizing s with
  | nil => rfl
  | cons h rest ih =>
    rcases issueRun_cases s h now with ⟨heq, e, herr⟩ | ⟨t, hok, hpos, hlast, _⟩
    · simp only [issueAll, herr]
      rw [heq]
      exact ih _
    · simp only [issueAll, hok, List.map_cons, List.length_cons, List.range'_succ]
      rw [ih, hlast, hpos]

/-- C1: in every reachable queue state the positions of the tickets ever
issued are exactly `1, …, lastIssued` in order, with no duplicates and no
gaps; and from any starting state, the tickets created by the successful
calls of a batch of `issueTicket` calls carry exactly the positions
`prevLastIssued + 1, …, prevLastIssued + N` where `N` is the number of
successful calls. -/
theorem c1_positions_sequential :
    (∀ s : QueueState, Reachable s →
        s.tickets.map (fun t => t.position) = List.range' 1 s.lastIssued ∧
        (s.tickets.map (fun t => t.position)).Nodup) ∧
    (∀ (s : QueueState) (holders : List Nat) (now : Nat),
        ((issueAll s holders now).2).map (fun t => t.position) =
          List.range' (s.lastIssued + 1) ((issueAll s holders now).2).length) := by
  refine ⟨fun s hs => ⟨reachable_positions hs, ?_⟩,
    fun s holders now => issueAll_positions holders s now⟩
  rw [reachable_positions hs]
  exact List.nodup_range' _ _

/-- Witness for C1 at the concrete two-join trace `exQ2`. -/
theorem c1_witness :
    exQ2.tickets.map (fun t => t.position) = List.range' 1 exQ2.lastIssued ∧
    (exQ2.tickets.map (fun t => t.position)).Nodup :=
  c1_positions_sequential.1 exQ2
    (Reachable.step (Reachable.step Reachable.init (Step.issue initState 7 0))
      (Step.issue exQ1 8 0))

/-- C2: in every reachable state, an `issueTicket` call for a holder that
already owns a ticket with status in `{WAITING, CALLED, SERVING}` fails
with `DuplicateHolder`, leaves the whole queue state unchanged and in
particular does not increment `lastIssued`. -/
theorem c2_duplicate_holder (s : QueueState) (holderId now : Nat)
    (hr : Reachable s) (hdup : hasActiveTicket s holderId = true) :
    (issueRun s holderId now).2 = .error .DuplicateHolder ∧
    (issueRun s holderId now).1 = s ∧
    ((issueRun s holderId now).1).lastIssued = s.lastIssued := by
  have ha : s.active = true := reachable_active hr
  unfold issueRun
  simp [ha, hdup]

/-- Witness for C2: holder 7 joins a fresh queue and immediately tries to
join again. -/
theorem c2_witness :
    (issueRun exQ1 7 1).2 = .error .DuplicateHolder ∧
    (issueRun exQ1 7 1).1 = exQ1 ∧
    ((issueRun exQ1 7 1).1).lastIssued = exQ1.lastIssued :=
  c2_duplicate_holder exQ1 7 1
    (Reachable.step Reachable.init (Step.issue initState 7 0)) (by decide)

/-- C5 (counterexample to monotonicity): in the reachable trace where
ticket 2 is completed first (`currentPosition` becomes 2) and ticket 1 is
then called, served and completed, the final `COMPLETED` transition moves
`currentPosition` backwards from 2 to 1 — so `currentPosition` is not
monotonically non-decreasing across every sequence of operations. -/
theorem c5_counterexample :
    Reachable exQ7 ∧ exQ7.currentPosition = 2 ∧
    (transitionRun exQ7 1 .COMPLETED 6).1.currentPosition = 1 ∧
    Step exQ7 (transitionRun exQ7 1 .COMPLETED 6).1 ∧
    ¬(exQ7.currentPosition ≤ (transitionRun exQ7 1 .COMPLETED 6).1.currentPosition) := by
  refine ⟨?_, by decide, by decide, Step.trans exQ7 1 .COMPLETED 6, by decide⟩
  exact Reachable.step (Reachable.step (Reachable.step (Reachable.step
    (Reachable.step (Reachable.step (Reachable.step Reachable.init
      (Step.issue initState 7 0))
      (Step.issue exQ1 8 0))
      (Step.trans exQ2 2 .CALLED 1))
      (Step.trans (transitionRun exQ2 2 .CALLED 1).1 2 .SERVING 2))
      (Step.trans (transitionRun (transitionRun exQ2 2 .CALLED 1).1 2 .SERVING 2).1
        2 .COMPLETED 3))
      (Step.trans exQ5 1 .CALLED 4))
      (Step.trans (transitionRun exQ5 1 .CALLED 4).1 1 .SERVING 5)

/-- C5 (amended): a successful `COMPLETED` or `NO_SHOW` transition sets
`currentPosition` to the transitioned ticket's position, these transitions
are the only writer of `currentPosition` (all other transitions and all
`issueTicket` calls leave it unchanged), `currentPosition ≤ lastIssued`
holds in every reachable state, and `currentPosition` never decreases
provided the transitioned ticket is not behind the current pointer —
completing or no-showing a ticket whose position is below `currentPosition`
moves the pointer backwards (the spec's §9 open question). -/
theorem c5_current_position :
    (∀ (s : QueueState) (pos now : Nat) (target : Status) (t : Ticket),
        s.tickets.find? (fun u => u.position == pos) = some t →
        legal t.status target = true →
        (target = Status.COMPLETED ∨ target = Status.NO_SHOW) →
        ((transitionRun s pos target now).1).currentPosition = t.position) ∧
    (∀ (s : QueueState) (pos now : Nat) (target : Status),
        ¬(target = Status.COMPLETED ∨ target = Status.NO_SHOW) →
        ((transitionRun s pos target now).1).currentPosition = s.currentPosition) ∧
    (∀ (s : QueueState) (holderId now : Nat),
        ((issueRun s holderId now).1).currentPosition = s.currentPosition) ∧
    (∀ s : QueueState, Reachable s → s.currentPosition ≤ s.lastIssued) ∧
    (∀ (s : QueueState) (pos now : Nat) (target : Status) (t : Ticket),
        s.tickets.find? (fun u => u.position == pos) = some t →
        s.currentPosition ≤ t.position →
        s.currentPosition ≤ ((transitionRun s pos target now).1).currentPosition) := by
  refine ⟨?_, ?_, fun s holderId now => issueRun_currentPosition s holderId now,
    fun s hs => reachable_cur_le hs, ?_⟩
  · intro s pos now target t hf hl htgt
    unfold transitionRun
    rw [hf]
    simp [hl, htgt]
  · intro s pos now target htgt
    unfold transitionRun
    cases hf : s.tickets.find? (fun u => u.position == pos) with
    | none => rfl
    | some t =>
      simp only
      split
      · simp [htgt]
      · rfl
  · intro s pos now target t hf hcur
    rcases transitionRun_currentPosition_cases s pos target now with h | ⟨t', hf', h⟩
    · rw [h]
    · rw [h]
      have : t' = t := by rw [hf] at hf'; exact (Option.some.inj hf').symm
      rw [this]
      exact hcur

/-- Witness for C5 (amended) at the fresh queue: `currentPosition = 0 ≤ 0 =
lastIssued`, and issuing a ticket leaves `currentPosition` unchanged. -/
theorem c5_witness :
    initState.currentPosition ≤ initState.lastIssued ∧
    ((issueRun initState 7 0).1).currentPosition = initState.currentPosition :=
  ⟨c5_current_position.2.2.2.1 initState Reachable.init,
    c5_current_position.2.2.1 initState 7 0⟩

/-- C6: the status state machine succeeds exactly on the five legal pairs
`WAITING→CALLED`, `WAITING→CANCELLED`, `CALLED→SERVING`, `CALLED→NO_SHOW`,
`SERVING→COMPLETED`; for every other `(fromStatus, targetStatus)` pair the
call fails with `InvalidTransition` and the whole queue state — hence the
ticket's status, timestamps and position — is left unchanged. -/
theorem c6_transition_table :
    (∀ a b : Status, legal a b = true ↔
        ((a = .WAITING ∧ b = .CALLED) ∨ (a = .WAITING ∧ b = .CANCELLED) ∨
         (a = .CALLED ∧ b = .SERVING) ∨ (a = .CALLED ∧ b = .NO_SHOW) ∨
         (a = .SERVING ∧ b = .COMPLETED))) ∧
    (∀ (s : QueueState) (pos now : Nat) (target : Status) (t : Ticket),
        s.tickets.find? (fun u => u.position == pos) = some t →
        ((∃ t', (transitionRun s pos target now).2 = .ok t') ↔
          legal t.status target = true)) ∧
    (∀ (s : QueueState) (pos now : Nat) (target : Status) (t : Ticket),
        s.tickets.find? (fun u => u.position == pos) = some t →
        legal t.status target = false →
        (transitionRun s pos target now).2 = .error .InvalidTransition ∧
        (transitionRun s pos target now).1 = s) := by
  refine ⟨?_, ?_, ?_⟩
  · intro a b
    cases a <;> cases b <;> simp [legal]
  · intro s pos now target t hf
    unfold transitionRun
    rw [hf]
    simp only
    constructor
    · intro ⟨t', ht'⟩
      by_contra hl
      rw [Bool.not_eq_true] at hl
      simp [hl] at ht'
    · intro hl
      simp [hl]
  · intro s pos now target t hf hl
    unfold transitionRun
    rw [hf]
    simp [hl]

/-- Witness for C6: requesting `SERVING` on a `WAITING` ticket fails with
`InvalidTransition` and leaves the state untouched. -/
theorem c6_witness :
    (transitionRun exQ1 1 .SERVING 0).2 = .error .InvalidTransition ∧
    (transitionRun exQ1 1 .SERVING 0).1 = exQ1 :=
  c6_transition_table.2.2 exQ1 1 0 .SERVING
    { holderId := 7, position := 1, status := .WAITING,
      createdAt := 0, calledAt := none, completedAt := none }
    (by decide) (by decide)

theorem ceil_div_sixty (n : Nat) :
    (((n + 59) / 60 : Nat) : ℤ) = ⌈(n : ℚ) / 60⌉ := by
  set m := (n + 59) / 60 with hm
  have h1 : (n : ℚ) ≤ 60 * m := by
    exact_mod_cast (by omega : n ≤ 60 * ((n + 59) / 60))
  have h2 : (60 : ℚ) * m < (n : ℚ) + 60 := by
    exact_mod_cast (by omega : 60 * ((n + 59) / 60) < n + 60)
  rw [eq_comm, Int.ceil_eq_iff]
  push_cast
  constructor
  · rw [lt_div_iff₀ (by norm_num : (0 : ℚ) < 60)]
    linarith
  · rw [div_le_iff₀ (by norm_num : (0 : ℚ) < 60)]
    linarith

/-- C3: the estimator returns `NotEnoughData` exactly when fewer than 10
completions were recorded; with enough data it returns `YourTurn` exactly
when `targetPosition ≤ currentPosition`, and otherwise `Seconds(n)` with
`n = (targetPosition - currentPosition) * avgServiceSeconds`; the frontend
caller `calculateETA` consumes the same raw-second product and rounds it up
to whole minutes (`Math.ceil(totalSeconds / 60)`) for display. -/
theorem c3_eta_estimate :
    (∀ (cc cur tgt : Nat) (avg : ℚ),
        estimate cc cur tgt avg = .NotEnoughData ↔ cc < 10) ∧
    (∀ (cc cur tgt : Nat) (avg : ℚ), 10 ≤ cc →
        (estimate cc cur tgt avg = .YourTurn ↔ tgt ≤ cur)) ∧
    (∀ (cc cur tgt : Nat) (avg : ℚ), 10 ≤ cc → cur < tgt →
        estimate cc cur tgt avg = .Seconds (((tgt : ℚ) - (cur : ℚ)) * avg)) ∧
    (∀ cur tgt avg : Nat, cur < tgt → 0 < avg →
        ((tgt : ℚ) - (cur : ℚ)) * (avg : ℚ) = (((tgt - cur) * avg : Nat) : ℚ) ∧
        calculateETA tgt cur avg = minutesLabel (((tgt - cur) * avg + 59) / 60) ∧
        ((((tgt - cur) * avg + 59) / 60 : Nat) : ℤ) =
          ⌈(((tgt - cur) * avg : Nat) : ℚ) / 60⌉) := by
  refine ⟨?_, ?_, ?_, ?_⟩
  · intro cc cur tgt avg
    unfold estimate
    split_ifs with h1 h2 <;> simp [h1]
  · intro cc cur tgt avg hcc
    unfold estimate
    rw [if_neg (by omega)]
    split_ifs with h2 <;> simp [h2]
  · intro cc cur tgt avg hcc hlt
    unfold estimate
    rw [if_neg (by omega), if_neg (by omega)]
  · intro cur tgt avg hlt havg
    refine ⟨?_, ?_, ceil_div_sixty _⟩
    · push_cast [Nat.cast_sub hlt.le]
      ring
    · unfold calculateETA
      rw [if_neg (by omega), if_neg (by omega)]

/-- Witness for C3: with 10 completions, current position 2, target 5 and
average 7 s the estimate is `Seconds 21`, and the caller displays
"About 1 minute" (21 s rounds up to 1 minute). -/
theorem c3_witness :
    estimate 10 2 5 7 = EtaResult.Seconds 21 ∧
    calculateETA 5 2 7 = minutesLabel (((5 - 2) * 7 + 59) / 60) := by
  have h := c3_eta_estimate.2.2.1 10 2 5 7 (by norm_num) (by norm_num)
  have h2 := (c3_eta_estimate.2.2.2 2 5 7 (by norm_num) (by norm_num)).2.1
  refine ⟨?_, h2⟩
  rw [h]
  norm_num

/-- C4 (counterexample): the claimed approximate EMA sequence is wrong —
after `serviceSeconds = 100` then `200` the exact formula with `α = 0.3`
gives `avgServiceSeconds = 81`, not approximately 72 (it is more than 2
away), and the third update from 81 gives 74.7, not approximately 68.4. -/
theorem c4_counterexample :
    emaUpdate (emaUpdate 0 100) 200 = 81 ∧
    ¬(|emaUpdate (emaUpdate 0 100) 200 - 72| ≤ 2) ∧
    emaUpdate 81 60 = 747 / 10 ∧
    ¬(|emaUpdate 81 60 - 684 / 10| ≤ 2) := by
  norm_num [emaUpdate, alpha, abs_le]

/-- C4 (amended): starting from `avgServiceSeconds = 0` and
`completedCount = 0`, completions with `serviceSeconds = 100`, `200`, `60`
yield `avgServiceSeconds` exactly `30`, `81`, `74.7` in sequence, with
`completedCount` incremented each time. -/
theorem c4_ema_sequence :
    onCompletion (0, 0) 100 = (30, 1) ∧
    onCompletion (30, 1) 200 = (81, 2) ∧
    onCompletion (81, 2) 60 = (747 / 10, 3) := by
  refine ⟨?_, ?_, ?_⟩ <;>
    simp [onCompletion, emaUpdate, alpha, Prod.ext_iff] <;> norm_num

theorem wsStep_replicate_fail (k n : Nat) :
    (List.replicate k WsEvent.fail).foldl wsStep n = n + k := by
  induction k generalizing n with
  | zero => rfl
  | succ k ih =>
    rw [List.replicate_succ, List.foldl_cons]
    show (List.replicate k WsEvent.fail).foldl wsStep (n + 1) = n + (k + 1)
    rw [ih]
    omega

/-- C7: after `k` consecutive failed reconnect attempts the attempt counter
is `k` and the delay scheduled before the next attempt is
`min(1000 * 2 ^ k, 30000)`; these delays are non-decreasing and double
until capped at the ceiling; a successful connection resets the counter to
zero, so the delay scheduled after the next failure is the base 1000 ms. -/
theorem c7_reconnect_backoff :
    (∀ k, attemptsAfter (List.replicate k WsEvent.fail) = k) ∧
    (∀ k, backoffDelay (attemptsAfter (List.replicate k WsEvent.fail)) =
        min (1000 * 2 ^ k) 30000) ∧
    (∀ k, backoffDelay k ≤ backoffDelay (k + 1)) ∧
    (∀ k, backoffDelay (k + 1) = min (2 * backoffDelay k) 30000) ∧
    (∀ events : List WsEvent,
        attemptsAfter (events ++ [WsEvent.success]) = 0 ∧
        backoffDelay (attemptsAfter (events ++ [WsEvent.success])) = INITIAL_DELAY) := by
  have hrep : ∀ k, attemptsAfter (List.replicate k WsEvent.fail) = k := by
    intro k
    simpa [attemptsAfter] using wsStep_replicate_fail k 0
  refine ⟨hrep, ?_, ?_, ?_, ?_⟩
  · intro k
    rw [hrep k]
    rfl
  · intro k
    unfold backoffDelay
    refine min_le_min (Nat.mul_le_mul_left _ ?_) (Nat.le_refl _)
    exact Nat.pow_le_pow_right (by norm_num) (Nat.le_succ k)
  · intro k
    by_cases h : k < 5
    · interval_cases k <;> decide
    · have h5 : 5 ≤ k := Nat.le_of_not_lt h
      have hk : 32000 ≤ 1000 * 2 ^ k := by
        calc (32000 : Nat) = 1000 * 2 ^ 5 := by norm_num
          _ ≤ 1000 * 2 ^ k :=
            Nat.mul_le_mul_left _ (Nat.pow_le_pow_right (by norm_num) h5)
      have hpow : (2 : Nat) ^ (k + 1) = 2 * 2 ^ k := by
        rw [pow_succ]; ring
      unfold backoffDelay INITIAL_DELAY MAX_RECONNECT_DELAY
      omega
  · intro events
    have h0 : attemptsAfter (events ++ [WsEvent.success]) = 0 := by
      simp [attemptsAfter, List.foldl_append, wsStep]
    exact ⟨h0, by rw [h0]; decide⟩

/-- C8 (code bug): `disconnect` clears the pending reconnect timer and
closes the channel, but delivering the WebSocket `close` event afterwards
runs `ws.onclose`, which unconditionally calls `scheduleReconnect` — so a
reconnect timer is armed again after teardown has completed. -/
theorem c8_teardown_rearms_timer :
    (disconnect connectedHook).timerPending = false ∧
    (disconnect connectedHook).wsAttached = false ∧
    (fireClose (disconnect connectedHook)).timerPending = true := by
  decide

/-- C9 (code bug): the agent applies pushed `queue_update` state while
connected (event A sets position 1), but after a drop and a successful
reconnect its state is bit-for-bit identical to the pre-gap state — the
`onopen` handler issues no state query, so an update missed during the gap
(the queue advancing to position 2) is not reflected. -/
theorem c9_no_refetch_after_reconnect :
    (clientRun [ClientEvent.message 1 30]).currentPosition = 1 ∧
    clientRun [ClientEvent.message 1 30, ClientEvent.dropped, ClientEvent.reopened] =
      clientRun [ClientEvent.message 1 30] ∧
    (clientRun [ClientEvent.message 1 30, ClientEvent.dropped,
        ClientEvent.reopened]).connected = true ∧
    (clientRun [ClientEvent.message 1 30, ClientEvent.dropped,
        ClientEvent.reopened]).currentPosition ≠ 2 := by
  decide

/-- C10: whenever the ticket's position strictly exceeds `currentPosition`
and `avgWaitTime ≥ 1`, the computed minute count
`Math.ceil((position_number - currentPosition) * avgWaitTime / 60)` is at
least 1, so the `"Less than 1 minute"` branch of `calculateETA` is
unreachable. -/
theorem c10_less_than_minute_unreachable
    (position_number currentPosition avgWaitTime : Nat)
    (hpos : currentPosition < position_number) (havg : 1 ≤ avgWaitTime) :
    1 ≤ ((position_number - currentPosition) * avgWaitTime + 59) / 60 ∧
    calculateETA position_number currentPosition avgWaitTime ≠
      EtaDisplay.lessThanOneMinute := by
  have h1 : 1 ≤ (position_number - currentPosition) * avgWaitTime :=
    Nat.one_le_iff_ne_zero.mpr (Nat.mul_ne_zero (by omega) (by omega))
  have hm : 1 ≤ ((position_number - currentPosition) * avgWaitTime + 59) / 60 := by
    omega
  refine ⟨hm, ?_⟩
  unfold calculateETA
  rw [if_neg (by omega), if_neg (by omega)]
  unfold minutesLabel
  rw [if_neg (by omega)]
  split_ifs <;> simp

/-- Witness for C10: one person ahead at one second per service still
displays at least a whole minute. -/
theorem c10_witness :
    1 ≤ ((1 - 0) * 1 + 59) / 60 ∧
    calculateETA 1 0 1 ≠ EtaDisplay.lessThanOneMinute :=
  c10_less_than_minute_unreachable 1 0 1 (by decide) (by decide)

end Qode
